import Mathlib

/- Shallow embedding of src/static/app.js: a small browser client that
   fetches a current weather reading and a history table from an HTTP API,
   renders them into the DOM, and copies a CSV export to the clipboard. -/

/-- JavaScript values as they occur in the JSON fields this client renders:
null, undefined (absent field), strings, integers and booleans. -/
inductive JVal where
  | vnull
  | vundef
  | vstr (s : String)
  | vnum (n : Int)
  | vbool (b : Bool)
  deriving DecidableEq, Repr

/-- JavaScript string conversion String(v) as used by template-literal
interpolation. -/
def jstr : JVal → String
  | .vnull => "null"
  | .vundef => "undefined"
  | .vstr s => s
  | .vnum n => toString n
  | .vbool b => toString b

/-- The test `v === null || v === undefined` (also the trigger of the
nullish-coalescing operator `??`). -/
def isNullOrUndef : JVal → Bool
  | .vnull => true
  | .vundef => true
  | _ => false

/-- JavaScript truthiness of a value, as tested by `data.timestamp_local ?`. -/
def truthy : JVal → Bool
  | .vnull => false
  | .vundef => false
  | .vstr s => !(s == "")
  | .vnum n => !(n == 0)
  | .vbool b => b

/-- A fetch request as issued by the client: a URL and the cache mode. -/
structure FetchRequest where
  url : String
  cache : String
  deriving DecidableEq, Repr

/-- An HTTP response: its status code and its (already parsed) body. -/
structure FetchResponse (α : Type) where
  status : Nat
  body : α

/-- `Response.ok`: true exactly when the status is in the range 200-299. -/
def respOk (status : Nat) : Bool := 200 ≤ status && status ≤ 299

/-- The request issued by `getJSON(url)`: `fetch(url, \x7b cache: "no-store" \x7d)`. -/
def getJSONRequest (url : String) : FetchRequest :=
  { url := url, cache := "no-store" }

/-- The request issued by `copyCSV`: `fetch("/api/history.csv", \x7b cache: "no-store" \x7d)`. -/
def copyCSVRequest : FetchRequest :=
  { url := "/api/history.csv", cache := "no-store" }

/-- `getJSON`: if `r.ok` return the parsed JSON body, otherwise throw
an `Error` whose message is `HTTP <status>`. -/
def getJSON {α : Type} (r : FetchResponse α) : Except String α :=
  if respOk r.status then .ok r.body else .error ("HTTP " ++ toString r.status)

/-- `cell(v)`: one table cell, blank for null/undefined, String(v) otherwise. -/
def cell (v : JVal) : String :=
  "<td>" ++ (if isNullOrUndef v then "" else jstr v) ++ "</td>"

/-- The string produced by interpolating `v ?? ""` into a template literal. -/
def coalesceEmpty (v : JVal) : String :=
  if isNullOrUndef v then "" else jstr v

/-- The JSON object returned by GET /api/current. Every field may be null
or absent. -/
structure CurrentReading where
  dry_bulb_F : JVal
  wet_bulb_F : JVal
  humidity_percent : JVal
  pressure_inHg : JVal
  timestamp_local : JVal
  station : JVal
  deriving DecidableEq, Repr

/-- One element of the JSON array returned by GET /api/history. -/
structure HistoryRow where
  timestamp_local : JVal
  temperature_F : JVal
  dry_bulb_F : JVal
  wet_bulb_F : JVal
  humidity_percent : JVal
  pressure_inHg : JVal
  deriving DecidableEq, Repr

/-- The innerHTML template that `loadCurrent` assigns to `#currentContent`. -/
def currentHTML (d : CurrentReading) : String :=
  "\n    <div><span class=\"label\">Temperature (dry bulb)</span><span class=\"val\">"
    ++ (coalesceEmpty d.dry_bulb_F ++ " °F")
    ++ ("</span></div>\n    <div><span class=\"label\">Wet bulb</span><span class=\"val\">"
    ++ (coalesceEmpty d.wet_bulb_F ++ " °F")
    ++ ("</span></div>\n    <div><span class=\"label\">Humidity</span><span class=\"val\">"
    ++ (coalesceEmpty d.humidity_percent ++ " %")
    ++ ("</span></div>\n    <div><span class=\"label\">Pressure</span><span class=\"val\">"
    ++ (coalesceEmpty d.pressure_inHg ++ " inHg")
    ++ "</span></div>\n  ")))

/-- The textContent that `loadCurrent` assigns to `#stamp`:
`As of <timestamp_local> (<station>)` when the timestamp is truthy, else "". -/
def stampText (d : CurrentReading) : String :=
  if truthy d.timestamp_local then
    "As of " ++ jstr d.timestamp_local ++ " (" ++ jstr d.station ++ ")"
  else ""

/-- The innerHTML of one history table row template. -/
def rowHTML (r : HistoryRow) : String :=
  "\n    <tr>"
    ++ "\n      " ++ cell r.timestamp_local
    ++ "\n      " ++ cell r.temperature_F
    ++ "\n      " ++ cell r.dry_bulb_F
    ++ "\n      " ++ cell r.wet_bulb_F
    ++ "\n      " ++ cell r.humidity_percent
    ++ "\n      " ++ cell r.pressure_inHg
    ++ "\n    </tr>\n  "

/-- The cells of one history row, in source order, as a list. -/
def renderRow (r : HistoryRow) : List String :=
  [cell r.timestamp_local, cell r.temperature_F, cell r.dry_bulb_F,
   cell r.wet_bulb_F, cell r.humidity_percent, cell r.pressure_inHg]

/-- The rendered table as a list of rows of cells. -/
def renderTable (rows : List HistoryRow) : List (List String) :=
  rows.map renderRow

/-- `rows.map(r => ...).join("")`: the innerHTML assigned to `#histBody`. -/
def histBodyHTML (rows : List HistoryRow) : String :=
  String.join (rows.map rowHTML)

/-- Observable side effects of the client: DOM writes to the four elements
it touches, clipboard writes, and the delayed button-label write scheduled
with setTimeout. -/
inductive Effect where
  | setCurrentContent (html : String)
  | setStamp (text : String)
  | setHistBody (html : String)
  | setCopyBtnLabel (text : String)
  | clipboardWrite (text : String)
  | timerSetCopyBtnLabel (delayMs : Nat) (text : String)
  deriving DecidableEq, Repr

/-- `loadCurrent`: await getJSON("/api/current"), then write the panel HTML
and the stamp text. A rejected getJSON propagates and nothing is written. -/
def loadCurrent (r : FetchResponse CurrentReading) : Except String (List Effect) :=
  match getJSON r with
  | .error e => .error e
  | .ok data => .ok [.setCurrentContent (currentHTML data), .setStamp (stampText data)]

/-- `loadHistory`: await getJSON("/api/history"), then write the table body.
A rejected getJSON propagates and nothing is written. -/
def loadHistory (r : FetchResponse (List HistoryRow)) : Except String (List Effect) :=
  match getJSON r with
  | .error e => .error e
  | .ok rows => .ok [.setHistBody (histBodyHTML rows)]

/-- `copyCSV`: fetch /api/history.csv, take its body text without any status
check, write it to the clipboard, set the button label to "Copied!" and
schedule the label to be set to the fixed string "Copy 48h CSV to Clipboard"
1200 ms later. -/
def copyCSV (r : FetchResponse String) : List Effect :=
  [.clipboardWrite r.body,
   .setCopyBtnLabel "Copied!",
   .timerSetCopyBtnLabel 1200 "Copy 48h CSV to Clipboard"]

/-- The DOM state the client mutates. -/
structure Dom where
  currentContent : String
  stamp : String
  histBody : String
  copyBtnLabel : String
  deriving DecidableEq, Repr

/-- Apply one immediate effect to the DOM (clipboard and timers aside). -/
def applyEffect (d : Dom) : Effect → Dom
  | .setCurrentContent v => { d with currentContent := v }
  | .setStamp v => { d with stamp := v }
  | .setHistBody v => { d with histBody := v }
  | .setCopyBtnLabel v => { d with copyBtnLabel := v }
  | .clipboardWrite _ => d
  | .timerSetCopyBtnLabel _ _ => d

/-- Apply one effect once its timer has fired. -/
def applyTimerEffect (d : Dom) : Effect → Dom
  | .timerSetCopyBtnLabel _ v => { d with copyBtnLabel := v }
  | _ => d

/-- Run all immediate effects, in order, on a DOM state. -/
def runEffects (d : Dom) (es : List Effect) : Dom :=
  es.foldl applyEffect d

/-- Fire all pending timers, in order, on a DOM state. -/
def runTimers (d : Dom) (es : List Effect) : Dom :=
  es.foldl applyTimerEffect d

/-- The texts written to the system clipboard by a list of effects. -/
def clipboardWrites (es : List Effect) : List String :=
  es.filterMap fun e =>
    match e with
    | .clipboardWrite t => some t
    | _ => none

/-- The effects a settled loader actually performed: a rejected loader threw
before touching the DOM, so it performed none. -/
def effectsOf : Except String (List Effect) → List Effect
  | .ok es => es
  | .error _ => []

/-- Whether a settled loader resolved (true) or rejected (false). -/
def isOkE : Except String (List Effect) → Bool
  | .ok _ => true
  | .error _ => false

/-- `refreshAll`: `await Promise.all([loadCurrent(), loadHistory()])`.
Both loaders are started; the effects each performs happen regardless of
the other, and the combined promise resolves exactly when both resolve. -/
def refreshAll (cur : FetchResponse CurrentReading)
    (hist : FetchResponse (List HistoryRow)) : List Effect × Bool :=
  (effectsOf (loadCurrent cur) ++ effectsOf (loadHistory hist),
   isOkE (loadCurrent cur) && isOkE (loadHistory hist))

/-- The two handler functions the script wires up. -/
inductive Handler where
  | refreshAllH
  | copyCSVH
  deriving DecidableEq, Repr

/-- What the tail of the script registers: click handlers, the immediate
call, and the setInterval registration. -/
structure ScriptSetup where
  clickHandlers : List (String × Handler)
  initialCalls : List Handler
  intervals : List (Nat × Handler)
  deriving DecidableEq, Repr

/-- The registrations performed at script load by src/static/app.js. -/
def appSetup : ScriptSetup where
  clickHandlers := [("copyBtn", .copyCSVH), ("refreshBtn", .refreshAllH)]
  initialCalls := [.refreshAllH]
  intervals := [(5 * 60 * 1000, .refreshAllH)]

example : cell (.vstr "hi") = "<td>hi</td>" := rfl
example : cell .vnull = "<td></td>" := rfl
example : histBodyHTML [] = "" := rfl
example : stampText ⟨.vnull, .vnull, .vnull, .vnull, .vstr "T", .vnull⟩ = "As of T (null)" := rfl
example : clipboardWrites (copyCSV ⟨500, "x"⟩) = ["x"] := rfl

/-- Claim C1 counterexample: the claim is false for copyCSV. On a 500
response from /api/history.csv, copyCSV does not reject: it still writes the
(error) body to the clipboard. -/
theorem c1_counterexample :
    respOk 500 = false ∧
    clipboardWrites (copyCSV { status := 500, body := "server error" }) = ["server error"] :=
  ⟨rfl, rfl⟩

/-- Claim C1 (amended): a non-2xx response makes loadCurrent and loadHistory
reject with an error carrying the status code and perform no DOM mutation;
copyCSV, by contrast, never inspects the status and always writes the body
to the clipboard and updates the button label. -/
theorem c1_non2xx (status : Nat) (cur : CurrentReading) (rows : List HistoryRow)
    (csv : String) (h : respOk status = false) :
    loadCurrent { status := status, body := cur } = .error ("HTTP " ++ toString status) ∧
    effectsOf (loadCurrent { status := status, body := cur }) = [] ∧
    loadHistory { status := status, body := rows } = .error ("HTTP " ++ toString status) ∧
    effectsOf (loadHistory { status := status, body := rows }) = [] ∧
    copyCSV { status := status, body := csv } =
      [Effect.clipboardWrite csv, Effect.setCopyBtnLabel "Copied!",
       Effect.timerSetCopyBtnLabel 1200 "Copy 48h CSV to Clipboard"] := by
  refine ⟨?_, ?_, ?_, ?_, rfl⟩ <;>
    simp [loadCurrent, loadHistory, getJSON, h, effectsOf]

/-- Claim C1 witness: at status 404 the two JSON loaders reject with
"HTTP 404" and perform no DOM writes. -/
theorem c1_non2xx_witness :
    loadCurrent (FetchResponse.mk 404 (CurrentReading.mk .vnull .vnull .vnull .vnull .vnull .vnull)) =
      .error ("HTTP " ++ toString 404) ∧
    effectsOf (loadCurrent (FetchResponse.mk 404
      (CurrentReading.mk .vnull .vnull .vnull .vnull .vnull .vnull))) = [] ∧
    loadHistory (FetchResponse.mk 404 []) = .error ("HTTP " ++ toString 404) ∧
    effectsOf (loadHistory (FetchResponse.mk 404 ([] : List HistoryRow))) = [] ∧
    copyCSV (FetchResponse.mk 404 "nope") =
      [Effect.clipboardWrite "nope", Effect.setCopyBtnLabel "Copied!",
       Effect.timerSetCopyBtnLabel 1200 "Copy 48h CSV to Clipboard"] :=
  c1_non2xx 404 (CurrentReading.mk .vnull .vnull .vnull .vnull .vnull .vnull) [] "nope"
    (by decide)

/-- Claim C2 counterexample: with a truthy timestamp and a null station,
the stamp renders the literal text "null" for the station, not the empty
string. -/
theorem c2_counterexample :
    stampText (CurrentReading.mk .vnull .vnull .vnull .vnull
        (.vstr "2025-01-01 00:00") .vnull) = "As of 2025-01-01 00:00 (null)" ∧
    stampText (CurrentReading.mk .vnull .vnull .vnull .vnull
        (.vstr "2025-01-01 00:00") .vnull) ≠ "As of 2025-01-01 00:00 ()" :=
  ⟨rfl, by decide⟩

/-- Claim C2 (amended): the four measurement fields render as "" when null
or absent, and a null/absent timestamp_local yields an empty stamp; but
station is interpolated without a null guard, so with a truthy timestamp a
null/absent station renders as the literal text "null"/"undefined". -/
theorem c2_blank_fields (d : CurrentReading) :
    (isNullOrUndef d.dry_bulb_F = true → coalesceEmpty d.dry_bulb_F = "") ∧
    (isNullOrUndef d.wet_bulb_F = true → coalesceEmpty d.wet_bulb_F = "") ∧
    (isNullOrUndef d.humidity_percent = true → coalesceEmpty d.humidity_percent = "") ∧
    (isNullOrUndef d.pressure_inHg = true → coalesceEmpty d.pressure_inHg = "") ∧
    (isNullOrUndef d.timestamp_local = true → stampText d = "") ∧
    (truthy d.timestamp_local = true → isNullOrUndef d.station = true →
      stampText d = "As of " ++ jstr d.timestamp_local ++ " (" ++ jstr d.station ++ ")" ∧
      (jstr d.station = "null" ∨ jstr d.station = "undefined")) := by
  refine ⟨fun h => by simp [coalesceEmpty, h], fun h => by simp [coalesceEmpty, h],
    fun h => by simp [coalesceEmpty, h], fun h => by simp [coalesceEmpty, h],
    fun h => ?_, fun ht hs => ⟨by simp [stampText, ht], ?_⟩⟩
  · cases hts : d.timestamp_local <;> simp [hts, isNullOrUndef] at h <;>
      simp [stampText, truthy, hts]
  · cases hst : d.station <;> simp [hst, isNullOrUndef] at hs <;> simp [jstr]

/-- Claim C2 witness: a null dry-bulb field renders as the empty string. -/
theorem c2_blank_fields_witness :
    coalesceEmpty (CurrentReading.mk .vnull (.vnum 60) (.vnum 40) (.vnum 29)
        (.vstr "t") (.vstr "KMPR")).dry_bulb_F = "" :=
  (c2_blank_fields (CurrentReading.mk .vnull (.vnum 60) (.vnum 40) (.vnum 29)
    (.vstr "t") (.vstr "KMPR"))).1 rfl

/-- Claim C3 counterexample: if the button's label before the invocation was
"Original", after the 1200 ms timer fires the label is the fixed string
"Copy 48h CSV to Clipboard", not the original text. -/
theorem c3_counterexample :
    (runTimers (runEffects (Dom.mk "" "" "" "Original") (copyCSV { status := 200, body := "a,b" }))
        (copyCSV { status := 200, body := "a,b" })).copyBtnLabel = "Copy 48h CSV to Clipboard" ∧
    "Copy 48h CSV to Clipboard" ≠ "Original" :=
  ⟨rfl, by decide⟩

/-- Claim C3 (amended): after the clipboard write the button label is set to
"Copied!", and the scheduled 1200 ms timer sets it to the fixed string
"Copy 48h CSV to Clipboard" regardless of the label's previous text. -/
theorem c3_label_lifecycle (r : FetchResponse String) (d : Dom) :
    (runEffects d (copyCSV r)).copyBtnLabel = "Copied!" ∧
    Effect.timerSetCopyBtnLabel 1200 "Copy 48h CSV to Clipboard" ∈ copyCSV r ∧
    (runTimers (runEffects d (copyCSV r)) (copyCSV r)).copyBtnLabel =
      "Copy 48h CSV to Clipboard" := by
  refine ⟨rfl, ?_, rfl⟩
  simp [copyCSV]

/-- Helper: a string sits inside any concatenation that sandwiches it. -/
theorem strInfix_here (a p b : String) : List.IsInfix p.data (a ++ p ++ b).data :=
  ⟨a.data, b.data, by simp [String.data_append]⟩

/-- Helper: an infix of `s` is an infix of `a ++ s`. -/
theorem strInfix_drop (a s p : String) (h : List.IsInfix p.data s.data) :
    List.IsInfix p.data (a ++ s).data := by
  obtain ⟨u, v, huv⟩ := h
  refine ⟨a.data ++ u, v, ?_⟩
  rw [String.data_append, ← huv]
  simp

/-- Claim C4: on a 2xx history response loadHistory writes exactly the
rendered table to the table body; the rendered table has one row per input
row, each row has exactly 6 cells in the fixed field order, and an empty
array renders an empty table body. -/
theorem c4_history_table (resp : FetchResponse (List HistoryRow)) (rows : List HistoryRow) :
    (respOk resp.status = true →
      loadHistory resp = .ok [Effect.setHistBody (histBodyHTML resp.body)]) ∧
    (renderTable rows).length = rows.length ∧
    (∀ row ∈ renderTable rows, row.length = 6) ∧
    (∀ r : HistoryRow, rowHTML r =
      (renderRow r).foldl (fun acc c => acc ++ "\n      " ++ c) "\n    <tr>"
        ++ "\n    </tr>\n  ") ∧
    histBodyHTML rows = String.join (rows.map rowHTML) ∧
    histBodyHTML [] = "" := by
  refine ⟨fun h => ?_, ?_, ?_, fun r => rfl, rfl, rfl⟩
  · simp [loadHistory, getJSON, h]
  · simp [renderTable]
  · intro row hrow
    simp only [renderTable, List.mem_map] at hrow
    obtain ⟨r, -, rfl⟩ := hrow
    rfl

/-- Claim C4 witness: a 200 response with one history row resolves to a
single write of the rendered table body. -/
theorem c4_history_table_witness :
    loadHistory (FetchResponse.mk 200
        [HistoryRow.mk (.vstr "t") (.vnum 70) (.vnum 70) (.vnum 60) (.vnum 40) (.vnum 29)]) =
      .ok [Effect.setHistBody (histBodyHTML
        [HistoryRow.mk (.vstr "t") (.vnum 70) (.vnum 70) (.vnum 60) (.vnum 40) (.vnum 29)])] :=
  (c4_history_table (FetchResponse.mk 200
    [HistoryRow.mk (.vstr "t") (.vnum 70) (.vnum 70) (.vnum 60) (.vnum 40) (.vnum 29)]) []).1 rfl

/-- Claim C5: with all four measurement fields non-null, the panel HTML
contains each value followed by its unit ("°F", "°F", "%", "inHg",
each preceded by the template's space). -/
theorem c5_units (d : CurrentReading)
    (h1 : isNullOrUndef d.dry_bulb_F = false)
    (h2 : isNullOrUndef d.wet_bulb_F = false)
    (h3 : isNullOrUndef d.humidity_percent = false)
    (h4 : isNullOrUndef d.pressure_inHg = false) :
    List.IsInfix (jstr d.dry_bulb_F ++ " °F").data (currentHTML d).data ∧
    List.IsInfix (jstr d.wet_bulb_F ++ " °F").data (currentHTML d).data ∧
    List.IsInfix (jstr d.humidity_percent ++ " %").data (currentHTML d).data ∧
    List.IsInfix (jstr d.pressure_inHg ++ " inHg").data (currentHTML d).data := by
  have e1 : jstr d.dry_bulb_F = coalesceEmpty d.dry_bulb_F := by simp [coalesceEmpty, h1]
  have e2 : jstr d.wet_bulb_F = coalesceEmpty d.wet_bulb_F := by simp [coalesceEmpty, h2]
  have e3 : jstr d.humidity_percent = coalesceEmpty d.humidity_percent := by
    simp [coalesceEmpty, h3]
  have e4 : jstr d.pressure_inHg = coalesceEmpty d.pressure_inHg := by simp [coalesceEmpty, h4]
  refine ⟨?_, ?_, ?_, ?_⟩
  · rw [e1]; simp only [currentHTML]
    exact strInfix_here _ _ _
  · rw [e2]; simp only [currentHTML]
    exact strInfix_drop _ _ _ (strInfix_here _ _ _)
  · rw [e3]; simp only [currentHTML]
    exact strInfix_drop _ _ _ (strInfix_drop _ _ _ (strInfix_here _ _ _))
  · rw [e4]; simp only [currentHTML]
    exact strInfix_drop _ _ _ (strInfix_drop _ _ _ (strInfix_drop _ _ _ (strInfix_here _ _ _)))

/-- Claim C5 witness: with concrete numeric readings the panel contains
"71 °F" for the dry bulb. -/
theorem c5_units_witness :
    List.IsInfix (jstr (CurrentReading.mk (.vnum 71) (.vnum 60) (.vnum 40) (.vnum 29)
        (.vstr "t") (.vstr "KMPR")).dry_bulb_F ++ " °F").data
      (currentHTML (CurrentReading.mk (.vnum 71) (.vnum 60) (.vnum 40) (.vnum 29)
        (.vstr "t") (.vstr "KMPR"))).data :=
  (c5_units (CurrentReading.mk (.vnum 71) (.vnum 60) (.vnum 40) (.vnum 29)
    (.vstr "t") (.vstr "KMPR")) rfl rfl rfl rfl).1

/-- Claim C6: getJSON fetches with cache "no-store"; on a 2xx status it
returns the parsed body, otherwise it throws an error whose message carries
the status code. -/
theorem c6_getJSON {α : Type} (url : String) (r : FetchResponse α) :
    getJSONRequest url = FetchRequest.mk url "no-store" ∧
    (respOk r.status = true ↔ 200 ≤ r.status ∧ r.status ≤ 299) ∧
    (respOk r.status = true → getJSON r = .ok r.body) ∧
    (respOk r.status = false → getJSON r = .error ("HTTP " ++ toString r.status)) := by
  refine ⟨rfl, ?_, fun h => by simp [getJSON, h], fun h => by simp [getJSON, h]⟩
  simp [respOk]

/-- Claim C6 witness: a 200 response yields the parsed body. -/
theorem c6_getJSON_witness :
    getJSON (FetchResponse.mk 200 (42 : Nat)) = .ok 42 :=
  (c6_getJSON "/api/current" (FetchResponse.mk 200 (42 : Nat))).2.2.1 rfl

/-- Claim C7: the only clipboard write of copyCSV is the fetched response
body, verbatim. -/
theorem c7_clipboard_verbatim (r : FetchResponse String) :
    clipboardWrites (copyCSV r) = [r.body] :=
  rfl

/-- Claim C8: refreshAll performs the effects of both loaders (each
regardless of the other's outcome) and resolves exactly when both do; the
script calls it at load, wires it to the refresh button, and registers it on
a 300000 ms (5 minute) interval. -/
theorem c8_refresh (cur : FetchResponse CurrentReading)
    (hist : FetchResponse (List HistoryRow)) :
    (refreshAll cur hist).1 = effectsOf (loadCurrent cur) ++ effectsOf (loadHistory hist) ∧
    (refreshAll cur hist).2 = (isOkE (loadCurrent cur) && isOkE (loadHistory hist)) ∧
    appSetup.initialCalls = [Handler.refreshAllH] ∧
    ("refreshBtn", Handler.refreshAllH) ∈ appSetup.clickHandlers ∧
    appSetup.intervals = [(300000, Handler.refreshAllH)] := by
  refine ⟨rfl, rfl, rfl, ?_, rfl⟩
  simp [appSetup]

/-- Claim C9: cell wraps String(v) in a td element verbatim, with no HTML
escaping, and renders null/undefined as an empty cell. -/
theorem c9_cell (v : JVal) :
    (isNullOrUndef v = false → cell v = "<td>" ++ jstr v ++ "</td>") ∧
    cell JVal.vnull = "<td></td>" ∧ cell JVal.vundef = "<td></td>" :=
  ⟨fun h => by simp [cell, h], rfl, rfl⟩

/-- Claim C9 witness: an HTML-special server value is inserted verbatim. -/
theorem c9_cell_witness :
    cell (JVal.vstr "<img src=x onerror=alert(1)>") =
      "<td>" ++ jstr (JVal.vstr "<img src=x onerror=alert(1)>") ++ "</td>" :=
  (c9_cell (JVal.vstr "<img src=x onerror=alert(1)>")).1 rfl

/-- Claim C10: the stamp is empty whenever timestamp_local is falsy (so the
station is not shown even when present), and is
"As of <timestamp_local> (<station>)" when timestamp_local is truthy;
loadCurrent writes exactly the panel HTML and this stamp on a 2xx response. -/
theorem c10_stamp (d : CurrentReading) :
    (truthy d.timestamp_local = false → stampText d = "") ∧
    (truthy d.timestamp_local = true →
      stampText d = "As of " ++ jstr d.timestamp_local ++ " (" ++ jstr d.station ++ ")") ∧
    (∀ status : Nat, respOk status = true →
      loadCurrent (FetchResponse.mk status d) =
        .ok [Effect.setCurrentContent (currentHTML d), Effect.setStamp (stampText d)]) :=
  ⟨fun h => by simp [stampText, h], fun h => by simp [stampText, h],
   fun _ h => by simp [loadCurrent, getJSON, h]⟩

/-- Claim C10 witness: an empty-string timestamp is falsy, so even with a
station present the stamp is empty. -/
theorem c10_stamp_witness :
    stampText (CurrentReading.mk (.vnum 70) (.vnum 60) (.vnum 40) (.vnum 29)
      (.vstr "") (.vstr "KMPR")) = "" :=
  (c10_stamp (CurrentReading.mk (.vnum 70) (.vnum 60) (.vnum 40) (.vnum 29)
    (.vstr "") (.vstr "KMPR"))).1 rfl
